import Mathlib

/-!
Verification of the portfolio valuation-and-rebalancing engine of
`Portfolios/base_portfolio.py` (class `BasePortfolio` and the module-level
date helpers), via a shallow embedding in Lean 4.

Modelling conventions:
* Python `datetime.date` values are modelled by the `Date` structure
  (year/month/day, proleptic Gregorian calendar).  Date comparison in Python
  is chronological; here it is expressed through the rata-die number
  `Date.rataDie`, which is strictly monotone in chronological order for
  valid dates, so `rataDie`-comparison and calendar comparison agree.
* Python floats are idealised as exact rationals `ℚ`; the float special
  values produced by pandas (`NaN` from `0/0` or a missing predecessor,
  `inf` from `x/0` with `x ≠ 0`) are modelled explicitly by the `FVal`
  carrier where they can arise.
* Methods that mutate `self` become functions `State → ... → State`
  (or `Option`/`Except` when the Python code can raise), returning the
  post-state.
-/

/-- A calendar date, as in Python's `datetime.date`. -/
structure Date where
  year : ℕ
  month : ℕ
  day : ℕ
  deriving DecidableEq, Repr

/-- Gregorian leap-year rule (as implemented by Python's `calendar`/`datetime`). -/
def isLeap (y : ℕ) : Bool :=
  y % 4 == 0 && (y % 100 != 0 || y % 400 == 0)

/-- Number of days in month `m` of year `y` (months are 1-based). -/
def daysInMonth (y m : ℕ) : ℕ :=
  if m = 2 then (if isLeap y then 29 else 28)
  else if m = 4 ∨ m = 6 ∨ m = 9 ∨ m = 11 then 30
  else 31

/-- A date is valid when its month and day are in calendar range. -/
def Date.isValid (d : Date) : Prop :=
  1 ≤ d.month ∧ d.month ≤ 12 ∧ 1 ≤ d.day ∧ d.day ≤ daysInMonth d.year d.month

instance (d : Date) : Decidable d.isValid := by
  unfold Date.isValid; infer_instance

/-- Successor date (adding one day, rolling months and years). -/
def nextDay (d : Date) : Date :=
  if d.day < daysInMonth d.year d.month then ⟨d.year, d.month, d.day + 1⟩
  else if d.month < 12 then ⟨d.year, d.month + 1, 1⟩
  else ⟨d.year + 1, 1, 1⟩

/-- Predecessor date (subtracting one day, rolling months and years). -/
def prevDay (d : Date) : Date :=
  if 1 < d.day then ⟨d.year, d.month, d.day - 1⟩
  else if 1 < d.month then ⟨d.year, d.month - 1, daysInMonth d.year (d.month - 1)⟩
  else ⟨d.year - 1, 12, 31⟩

/-- `d + datetime.timedelta(days=n)` for `n ≥ 0`. -/
def addDaysN (d : Date) (n : ℕ) : Date :=
  match n with
  | 0 => d
  | n + 1 => addDaysN (nextDay d) n

/-- `d - datetime.timedelta(days=n)` for `n ≥ 0`. -/
def subDaysN (d : Date) (n : ℕ) : Date :=
  match n with
  | 0 => d
  | n + 1 => subDaysN (prevDay d) n

/-- Rata-die style day number (days-from-civil, Hinnant's algorithm, with an
era-based epoch).  Only differences of `rataDie` values matter; the formula is
strictly monotone in chronological order over valid dates, so it also serves
as the order used for Python date comparison. -/
def Date.rataDie (d : Date) : ℤ :=
  let y : ℤ := if d.month ≤ 2 then (d.year : ℤ) - 1 else (d.year : ℤ)
  let mp : ℤ := ((d.month : ℤ) + 9) % 12
  let doy : ℤ := (153 * mp + 2) / 5 + (d.day : ℤ) - 1
  365 * y + y.fdiv 4 - y.fdiv 100 + y.fdiv 400 + doy

/-- Chronological comparison of dates (Python `<=` on `datetime.date`). -/
def dateLE (a b : Date) : Prop := a.rataDie ≤ b.rataDie

/-- Strict chronological comparison of dates (Python `<` on `datetime.date`). -/
def dateLT (a b : Date) : Prop := a.rataDie < b.rataDie

instance (a b : Date) : Decidable (dateLE a b) := by unfold dateLE; infer_instance
instance (a b : Date) : Decidable (dateLT a b) := by unfold dateLT; infer_instance

/-- `last_day_of_month` (base_portfolio.py lines 432-435):
`next_month = any_day.replace(day=28) + datetime.timedelta(days=4)`,
then `next_month - datetime.timedelta(days=next_month.day)`. -/
def last_day_of_month (d : Date) : Date :=
  let base : Date := ⟨d.year, d.month, 28⟩
  let next_month := addDaysN base 4
  subDaysN next_month next_month.day

/-- Python's `min(earlier_dates, key=...)`: first element attaining the
minimal key.  `minByKey k x xs` scans `xs`, replacing the current minimum
only on a strictly smaller key, as `min` does. -/
def minByKey (k : Date → ℤ) (x : Date) (xs : List Date) : Date :=
  match xs with
  | [] => x
  | y :: ys => if k y < k x then minByKey k y ys else minByKey k x ys

/-- `find_closest_earlier_date` (base_portfolio.py lines 437-452):
filters the dates `≤ target` and returns the one minimising
`(target_date - date).days`; `None` when no date qualifies. -/
def find_closest_earlier_date (target : Date) (date_list : List Date) : Option Date :=
  let earlier := date_list.filter (fun d => decide (dateLE d target))
  match earlier with
  | [] => none
  | x :: xs => some (minByKey (fun d => target.rataDie - d.rataDie) x xs)

/-- `dateutil.relativedelta(months=+k)` on a date: add `k` calendar months and
clamp the day to the target month's length.  `relativedelta(years=+1)`
(the "annually" step) behaves identically to adding 12 months. -/
def addMonths (d : Date) (k : ℕ) : Date :=
  let m0 := d.month - 1 + k
  let y := d.year + m0 / 12
  let m := m0 % 12 + 1
  ⟨y, m, min d.day (daysInMonth y m)⟩

/-- One entry of the `RDO` table in `Constants/rebalance_date_options.py`:
a dict with a `name` and a `returns` key. -/
structure RDOEntry where
  name : String
  returnsKey : String
  deriving DecidableEq, Repr

def RDO_NEVER : RDOEntry := ⟨"never", "full_return"⟩
def RDO_ANNUALLY : RDOEntry := ⟨"annually", "annually_returns"⟩
def RDO_SEMI_ANNUALLY : RDOEntry := ⟨"semi annually", "semi_annually_returns"⟩
def RDO_QUARTERLY : RDOEntry := ⟨"quarterly", "quarterly_returns"⟩
def RDO_MONTHLY : RDOEntry := ⟨"monthly", "monthly_returns"⟩
def RDO_WEEKLY : RDOEntry := ⟨"weekly", "weekly_returns"⟩
def RDO_DAILY : RDOEntry := ⟨"daily", "daily_returns"⟩

/-- The `frequencies` table of `generate_rebalance_dates` (lines 263-268):
calendar step in months for each policy name; `frequencies.get` yields `None`
for any other name ("never", "weekly", "daily"). -/
def freqDelta (name : String) : Option ℕ :=
  if name = "monthly" then some 1
  else if name = "quarterly" then some 3
  else if name = "semi annually" then some 6
  else if name = "annually" then some 12
  else none

/-- Line 260 compares `self.rebalance_frequency` (an RDO entry, i.e. a dict)
with the string `RDO["NEVER"]["name"]`; in Python a dict never equals a
string, so the comparison is always `False` and the early
`return [self.end_date]` is dead code for dict-valued policies (the
constructor's default and the only type under which line 269's
`self.rebalance_frequency["name"]` works). -/
def rdoEntryEqStr (_pol : RDOEntry) (_s : String) : Bool := false

/-- Appending of `self.end_date` after the loop (lines 282-283):
`if self.end_date not in dates: dates.append(self.end_date)`. -/
def appendEndDate (dates : List (Option Date)) (endD : Date) : List (Option Date) :=
  if (some endD) ∈ dates then dates else dates ++ [some endD]

/-- The `while current_date <= self.end_date` loop of `generate_rebalance_dates`
(lines 270-281), with explicit fuel: the Python loop does not terminate when
the snapped date plus one step falls back before the current position, so a
fuel-exhaustion result (`none`) models a still-running loop.  List elements are
`Option Date` because Python appends the literal `None` when
`find_closest_earlier_date` finds nothing and the policy step is `None`;
with a real step, `None + relativedelta` raises `TypeError` (also `none`). -/
def genLoop (useful : List Date) (delta : Option ℕ) (start endD : Date) :
    ℕ → Date → List (Option Date) → Option (List (Option Date))
  | 0, _, _ => none
  | fuel + 1, cur, acc =>
    if dateLE cur endD then
      let c1 := match delta with
        | some _ => last_day_of_month cur
        | none => cur
      match (if c1 ∈ useful then some c1 else find_closest_earlier_date c1 useful) with
      | none =>
          match delta with
          | none => some (appendEndDate (acc ++ [none]) endD)
          | some _ => none
      | some c2 =>
          let acc2 := if c2 = start then acc else acc ++ [some c2]
          match delta with
          | none => some (appendEndDate acc2 endD)
          | some k => genLoop useful delta start endD fuel (addMonths c2 k) acc2
    else some (appendEndDate acc endD)

/-- `generate_rebalance_dates` (base_portfolio.py lines 253-284) on a
dict-valued rebalance policy. -/
def generate_rebalance_dates (pol : RDOEntry) (start endD : Date)
    (useful : List Date) (fuel : ℕ) : Option (List (Option Date)) :=
  if rdoEntryEqStr pol "never" then some [some endD]
  else genLoop useful (freqDelta pol.name) start endD fuel start []

/-- Granularity labels used as the `returns_type` strings of `RDO[...]["returns"]`. -/
inductive RType where
  | full_return
  | annually_returns
  | semi_annually_returns
  | quarterly_returns
  | monthly_returns
  | weekly_returns
  | daily_returns
  deriving DecidableEq, Repr

/-- The per-ticker dict produced by `calculate_returns`: one return series per
granularity key. -/
structure SeriesDict where
  full_return : List (Date × ℚ)
  annually_returns : List (Date × ℚ)
  semi_annually_returns : List (Date × ℚ)
  quarterly_returns : List (Date × ℚ)
  monthly_returns : List (Date × ℚ)
  weekly_returns : List (Date × ℚ)
  daily_returns : List (Date × ℚ)
  deriving DecidableEq

/-- Python `series_dict[returns_type]`. -/
def SeriesDict.get (sd : SeriesDict) : RType → List (Date × ℚ)
  | .full_return => sd.full_return
  | .annually_returns => sd.annually_returns
  | .semi_annually_returns => sd.semi_annually_returns
  | .quarterly_returns => sd.quarterly_returns
  | .monthly_returns => sd.monthly_returns
  | .weekly_returns => sd.weekly_returns
  | .daily_returns => sd.daily_returns

/-- Python `d.get(k)` on a string-keyed dict modelled as an association list. -/
def assocGet {α : Type} (l : List (String × α)) (k : String) : Option α :=
  (l.find? (fun p => p.1 == k)).map (·.2)

/-- The per-ticker return lookup of `get_total_value` (lines 308-315): exact
match on `until` when present in the index, otherwise the last entry of the
slice `ticker_returns[:until]` (i.e. the most recent entry at or before
`until`, for a chronologically sorted index); `none` models the `IndexError`
raised by `.iloc[-1]` when the slice is empty. -/
def lookupReturn (series : List (Date × ℚ)) (untilD : Date) : Option ℚ :=
  if series.any (fun p => p.1 == untilD) then
    (series.find? (fun p => p.1 == untilD)).map (·.2)
  else
    ((series.filter (fun p => decide (dateLE p.1 untilD))).getLast?).map (·.2)

/-- The state of a `BasePortfolio` object (the attributes set in `__init__`
that the modelled methods read or write). -/
structure PState where
  funds : List (String × ℚ)
  return_series : List (String × SeriesDict)
  allocations : List (String × ℚ)
  start_date : Date
  end_date : Date
  rebalance_frequency : RDOEntry
  rebalance_dates : List (Option Date)
  useful_dates : List Date
  daily_returns : List (Date × ℚ)
  deriving DecidableEq

/-- Return used for one ticker in `get_total_value`: the series lookup when the
ticker has a return series, else the default `0` (lines 303-318). -/
def retOf (rs : List (String × SeriesDict)) (rt : RType) (untilD : Date)
    (ticker : String) : Option ℚ :=
  match assocGet rs ticker with
  | some sd => lookupReturn (sd.get rt) untilD
  | none => some 0

/-- The `for ticker, initial_amount in self.funds.items()` loop of
`get_total_value` (lines 301-323): each balance is overwritten in place with
`initial_amount * (1 + return_up_to_date)` and added to the running total. -/
def gtvFunds (rs : List (String × SeriesDict)) (rt : RType) (untilD : Date) :
    List (String × ℚ) → Option (List (String × ℚ) × ℚ)
  | [] => some ([], 0)
  | (t, amt) :: rest =>
    match retOf rs rt untilD t with
    | none => none
    | some r =>
      match gtvFunds rs rt untilD rest with
      | none => none
      | some (fs, tot) => some ((t, amt * (1 + r)) :: fs, amt * (1 + r) + tot)

/-- `get_total_value` (base_portfolio.py lines 286-325) at an explicit `until`
date: mutates `self.funds` in place and returns the total. -/
def get_total_value (st : PState) (rt : RType) (untilD : Date) :
    Option (PState × ℚ) :=
  match gtvFunds st.return_series rt untilD st.funds with
  | none => none
  | some (fs, tot) => some ({st with funds := fs}, tot)

/-- `allocate` (base_portfolio.py lines 194-207).  A raised `ValueError` is
modelled as `Except.error` carrying the message and the object state at the
raise point (the check precedes the assignment, so that state is the input
state unchanged). -/
def allocate (st : PState) (allocations : List (String × ℚ)) :
    Except (String × PState) PState :=
  if (allocations.map (·.2)).sum > 100 then
    .error ("Total allocation exceeds 100%", st)
  else
    .ok {st with allocations := allocations}

/-- `rebalance` (base_portfolio.py lines 240-251): every fund balance is set to
`last_return * allocation / 100` where `last_return` is the last `Returns`
value of `self.daily_returns` (an `IndexError`, modelled `none`, on an empty
frame); `self.allocations.get(ticker, 0)` defaults to weight 0. -/
def rebalanceStep (st : PState) : Option PState :=
  match st.daily_returns.getLast? with
  | none => none
  | some lastRow =>
      some {st with funds := st.funds.map (fun p =>
        (p.1, lastRow.2 * ((assocGet st.allocations p.1).getD 0) / 100))}

/-- The `for current_date in self.useful_dates` loop of
`calculate_daily_returns` (lines 224-235): valuation, trajectory append, and a
rebalance when the date is in `self.rebalance_dates`. -/
def cdrLoop : List Date → PState → Option PState
  | [], st => some st
  | d :: ds, st =>
    match get_total_value st RType.daily_returns d with
    | none => none
    | some (st1, total) =>
      let st2 := {st1 with daily_returns := st1.daily_returns ++ [(d, total)]}
      if (some d) ∈ st2.rebalance_dates then
        match rebalanceStep st2 with
        | none => none
        | some st3 => cdrLoop ds st3
      else cdrLoop ds st2

/-- `calculate_daily_returns` (base_portfolio.py lines 218-238).  Its
`current_date` parameter is immediately shadowed by the loop variable and
therefore not modelled; the trailing `pct_change` only fills the derived
`Change` column and leaves the `Returns` values unchanged. -/
def calculate_daily_returns (st : PState) (fuel : ℕ) : Option PState :=
  match generate_rebalance_dates st.rebalance_frequency st.start_date
      st.end_date st.useful_dates fuel with
  | none => none
  | some rd => cdrLoop st.useful_dates {st with rebalance_dates := rd}

/-- `balance` (base_portfolio.py lines 209-216): every fund balance is set to
`initial_cash * allocation / 100` (missing allocation keys, including "cash"
when unkeyed, default to 0), then `calculate_daily_returns` runs. -/
def balance (st : PState) (initial_cash : ℚ) (fuel : ℕ) : Option PState :=
  calculate_daily_returns
    {st with funds := st.funds.map (fun p =>
      (p.1, initial_cash * ((assocGet st.allocations p.1).getD 0) / 100))} fuel

/-- Stable insertion of an element into a date-keyed list (ascending): the
element goes before the first entry it is not later than. -/
def insertByDate {α : Type} (key : α → Date) (a : α) : List α → List α
  | [] => [a]
  | b :: bs => if dateLE (key a) (key b) then a :: b :: bs else b :: insertByDate key a bs

/-- Stable ascending sort by date, modelling `DataFrame.sort_index()`. -/
def sortByDate {α : Type} (key : α → Date) : List α → List α
  | [] => []
  | a :: as => insertByDate key a (sortByDate key as)

/-- Carrier for pandas float entries that may be `NaN` or infinite: `nan`
stands for float NaN, `inf` for either infinity (`x / 0` with `x ≠ 0`),
`val q` for an ordinary (idealised exact) float. -/
inductive FVal where
  | nan
  | inf
  | val (q : ℚ)
  deriving DecidableEq, Repr

def FVal.isNan : FVal → Bool
  | .nan => true
  | _ => false

def FVal.isInf : FVal → Bool
  | .inf => true
  | _ => false

/-- Tail of `Series.pct_change()` after the first element: entry `i` is
`x_i / x_{i-1} - 1`; a zero predecessor yields NaN (when the current value is
also zero, i.e. `0/0`) or an infinity.  `nanRep` is what a NaN becomes
(`FVal.nan` for a raw `pct_change`, `FVal.val 0` after `.fillna(0)`). -/
def pctChangeTail (nanRep : FVal) (prev : ℚ) : List ℚ → List FVal
  | [] => []
  | c :: cs =>
    (if prev = 0 then (if c = 0 then nanRep else FVal.inf)
     else FVal.val (c / prev - 1)) :: pctChangeTail nanRep c cs

/-- `Series.pct_change().fillna(0)` as used for the daily returns (line 76). -/
def pctChangeFill0 : List ℚ → List FVal
  | [] => []
  | p :: ps => FVal.val 0 :: pctChangeTail (FVal.val 0) p ps

/-- `Series.pct_change()` without fill, as used for the `Change` column of
`monthly_returns`/`annually_returns` (lines 132, 189): first entry NaN. -/
def pctChangeRaw : List ℚ → List FVal
  | [] => []
  | p :: ps => FVal.nan :: pctChangeTail FVal.nan p ps

/-- A price-history record (row of the `hist_data` DataFrame). -/
structure PriceBar where
  date : Date
  close : ℚ
  adjclose : ℚ
  deriving DecidableEq, Repr

/-- Reference price column selection of `calculate_returns` (lines 49-54). -/
def chooseCol (adjclose : Bool) (b : PriceBar) : ℚ :=
  if adjclose then b.adjclose else b.close

/-- The two granularities of `calculate_returns` modelled here: the one-element
full-period series (lines 60-63) and the daily series (line 76).  The five
resample-based granularities (annual ... weekly) are not modelled. -/
structure CalcReturns where
  full_return : List (Date × ℚ)
  daily_returns : List (Date × FVal)
  deriving DecidableEq

/-- `calculate_returns` (base_portfolio.py lines 34-89), full-period and daily
parts: sorts by date, picks the reference column, computes
`end/start - 1` dated at the last observation and the daily `pct_change`
with NaN filled to 0.  `none` models the `IndexError` of `.iloc[0]` on an
empty history. -/
def calculate_returns (hist : List PriceBar) (adjclose : Bool) :
    Option CalcReturns :=
  match sortByDate (fun b => b.date) hist with
  | [] => none
  | x :: xs =>
      let l := x :: xs
      let lastBar := List.getLastD xs x
      some { full_return :=
               [(lastBar.date, chooseCol adjclose lastBar / chooseCol adjclose x - 1)],
             daily_returns :=
               List.zip (l.map (fun b => b.date)) (pctChangeFill0 (l.map (chooseCol adjclose))) }

/-- Mean of a list of rationals. -/
def sampleMean (xs : List ℚ) : ℚ := xs.sum / xs.length

/-- Sample variance with `ddof = 1` (the pandas `std` default), meaningful for
`2 ≤ xs.length`. -/
def sampleVar (xs : List ℚ) : ℚ :=
  ((xs.map (fun x => (x - sampleMean xs) ^ 2)).sum) / (xs.length - 1)

/-- Result of a pandas `Series.std()` call: NaN or a number. -/
inductive StdVal where
  | nan
  | num (x : ℝ)

/-- `Series.std()` with the pandas defaults (`skipna=True`, `ddof=1`): NaN
entries are skipped, any remaining infinity poisons the result to NaN, fewer
than two remaining values give NaN (`count - ddof ≤ 0`), otherwise the square
root of the sample variance. -/
noncomputable def stdSkipNaN (xs : List FVal) : StdVal :=
  let nonNan := xs.filter (fun v => !v.isNan)
  if nonNan.any (fun v => v.isInf) then .nan
  else
    let vs := nonNan.filterMap (fun v => match v with | .val q => some q | _ => none)
    if vs.length < 2 then .nan
    else .num (Real.sqrt (sampleVar vs))

/-- Result shape of `calculate_stdev`: the early return is the one-key dict
`{'monthly': 0}` (line 352), the normal return carries both standard
deviations. -/
inductive StdevResult where
  | monthlyOnly (m : ℚ)
  | both (monthly annually : StdVal)

/-- `calculate_stdev` (base_portfolio.py lines 350-360), as a function of the
`Returns` columns of `self.monthly_returns` and `self.annually_returns` (whose
`Change` columns are their raw `pct_change`, lines 132 and 189).  The
`dropna(inplace=True)` on a column slice does not need modelling separately
because `std` skips NaN anyway. -/
noncomputable def calculate_stdev (monthlyReturns annuallyReturns : List ℚ) :
    StdevResult :=
  if monthlyReturns.length < 2 then .monthlyOnly 0
  else .both (stdSkipNaN (pctChangeRaw monthlyReturns))
             (stdSkipNaN (pctChangeRaw annuallyReturns))

/-- `calculate_cagr` (base_portfolio.py lines 327-348) on the daily value
trajectory: 0 for an empty frame; otherwise
`(end_value / start_value) ** (1 / years) - 1` with
`years = (end_date - start_date).days / 365.25`.  When `years` is zero
(single entry, or first and last entry on the same date) the Python
expression `1 / years` raises `ZeroDivisionError`, modelled as
`Except.error ()`. -/
noncomputable def calculate_cagr (traj : List (Date × ℚ)) : Except Unit ℝ :=
  match sortByDate (fun p => p.1) traj with
  | [] => .ok 0
  | x :: xs =>
      let e := List.getLastD xs x
      let days : ℤ := e.1.rataDie - x.1.rataDie
      let years : ℚ := (days : ℚ) / (1461 / 4)
      if years = 0 then .error ()
      else .ok (Real.rpow ((e.2 : ℝ) / (x.2 : ℝ)) ((years : ℝ))⁻¹ - 1)

/-- Derived form of the loop body of `get_total_value`: the factor applied to
one ticker's balance (`1 + return_up_to_date`). -/
def gtvMultiplier (rs : List (String × SeriesDict)) (rt : RType) (untilD : Date)
    (ticker : String) : ℚ :=
  1 + (retOf rs rt untilD ticker).getD 0

/-- Derived form of the in-place update `get_total_value` performs on
`self.funds`: every balance multiplied by its ticker's factor. -/
def gtvAdvanceFunds (rs : List (String × SeriesDict)) (rt : RType) (untilD : Date)
    (funds : List (String × ℚ)) : List (String × ℚ) :=
  funds.map (fun p => (p.1, p.2 * gtvMultiplier rs rt untilD p.1))

/-- A `SeriesDict` with every granularity empty. -/
def emptySeriesDict : SeriesDict := ⟨[], [], [], [], [], [], []⟩

/-- Concrete portfolio state used to instantiate universally quantified
theorems: funds `{A: 0, B: 0, cash: 10000}` with allocation `{A: 50, B: 50}`
and no return data. -/
def examplePState : PState where
  funds := [("A", 0), ("B", 0), ("cash", 10000)]
  return_series := []
  allocations := [("A", 50), ("B", 50)]
  start_date := ⟨2021, 12, 31⟩
  end_date := ⟨2022, 12, 31⟩
  rebalance_frequency := RDO_NEVER
  rebalance_dates := []
  useful_dates := []
  daily_returns := []

/-- Concrete state with one instrument carrying a daily return series
(return 1/10 on 2022-01-03) next to a cash balance. -/
def gtvExamplePState : PState where
  funds := [("A", 100), ("cash", 50)]
  return_series := [("A", {emptySeriesDict with daily_returns := [(⟨2022, 1, 3⟩, 1/10)]})]
  allocations := [("A", 100)]
  start_date := ⟨2022, 1, 3⟩
  end_date := ⟨2022, 1, 3⟩
  rebalance_frequency := RDO_NEVER
  rebalance_dates := []
  useful_dates := [⟨2022, 1, 3⟩]
  daily_returns := []

/-- Concrete state on which `balance` does not leave the distributed amounts
in place: instrument A has a +100% daily return on the single trading day. -/
def balanceCounterPState : PState where
  funds := [("A", 0), ("cash", 0)]
  return_series := [("A", {emptySeriesDict with daily_returns := [(⟨2022, 1, 3⟩, 1)]})]
  allocations := [("A", 100)]
  start_date := ⟨2022, 1, 3⟩
  end_date := ⟨2022, 1, 3⟩
  rebalance_frequency := RDO_NEVER
  rebalance_dates := []
  useful_dates := [⟨2022, 1, 3⟩]
  daily_returns := []

/-- The dates `d, d+1, ..., d+n`. -/
def dateRangeFrom (d : Date) : ℕ → List Date
  | 0 => [d]
  | n + 1 => d :: dateRangeFrom (nextDay d) n

/-- Monday-to-Friday test, anchored at 2022-01-03 (a Monday). -/
def isWeekday (d : Date) : Bool :=
  (d.rataDie - Date.rataDie ⟨2022, 1, 3⟩).emod 7 < 5

/-- Boolean check that a list of dates is strictly chronologically
increasing. -/
def chronoSorted : List Date → Bool
  | [] => true
  | [_] => true
  | a :: b :: rest => decide (dateLT a b) && chronoSorted (b :: rest)

/-- Decode a `yyyymmdd` literal into a `Date`. -/
def decodeDate (n : ℕ) : Date := ⟨n / 10000, n / 100 % 100, n % 100⟩

/-- All weekdays from 2021-12-31 through 2022-12-31 (as `yyyymmdd` literals):
the trading-day set for the monthly rebalance-dates example.  No 2022 market
holiday falls on a month-end snap target, so real holiday calendars produce
the same snapped dates.  `c2_trading_days_are_the_weekdays` checks the list
against the weekday generator. -/
def tradingDays2022 : List Date :=
  ([20211231, 20220103, 20220104, 20220105, 20220106, 20220107, 20220110, 20220111, 20220112,
   20220113, 20220114, 20220117, 20220118, 20220119, 20220120, 20220121, 20220124, 20220125,
   20220126, 20220127, 20220128, 20220131, 20220201, 20220202, 20220203, 20220204, 20220207,
   20220208, 20220209, 20220210, 20220211, 20220214, 20220215, 20220216, 20220217, 20220218,
   20220221, 20220222, 20220223, 20220224, 20220225, 20220228, 20220301, 20220302, 20220303,
   20220304, 20220307, 20220308, 20220309, 20220310, 20220311, 20220314, 20220315, 20220316,
   20220317, 20220318, 20220321, 20220322, 20220323, 20220324, 20220325, 20220328, 20220329,
   20220330, 20220331, 20220401, 20220404, 20220405, 20220406, 20220407, 20220408, 20220411,
   20220412, 20220413, 20220414, 20220415, 20220418, 20220419, 20220420, 20220421, 20220422,
   20220425, 20220426, 20220427, 20220428, 20220429, 20220502, 20220503, 20220504, 20220505,
   20220506, 20220509, 20220510, 20220511, 20220512, 20220513, 20220516, 20220517, 20220518,
   20220519, 20220520, 20220523, 20220524, 20220525, 20220526, 20220527, 20220530, 20220531,
   20220601, 20220602, 20220603, 20220606, 20220607, 20220608, 20220609, 20220610, 20220613,
   20220614, 20220615, 20220616, 20220617, 20220620, 20220621, 20220622, 20220623, 20220624,
   20220627, 20220628, 20220629, 20220630, 20220701, 20220704, 20220705, 20220706, 20220707,
   20220708, 20220711, 20220712, 20220713, 20220714, 20220715, 20220718, 20220719, 20220720,
   20220721, 20220722, 20220725, 20220726, 20220727, 20220728, 20220729, 20220801, 20220802,
   20220803, 20220804, 20220805, 20220808, 20220809, 20220810, 20220811, 20220812, 20220815,
   20220816, 20220817, 20220818, 20220819, 20220822, 20220823, 20220824, 20220825, 20220826,
   20220829, 20220830, 20220831, 20220901, 20220902, 20220905, 20220906, 20220907, 20220908,
   20220909, 20220912, 20220913, 20220914, 20220915, 20220916, 20220919, 20220920, 20220921,
   20220922, 20220923, 20220926, 20220927, 20220928, 20220929, 20220930, 20221003, 20221004,
   20221005, 20221006, 20221007, 20221010, 20221011, 20221012, 20221013, 20221014, 20221017,
   20221018, 20221019, 20221020, 20221021, 20221024, 20221025, 20221026, 20221027, 20221028,
   20221031, 20221101, 20221102, 20221103, 20221104, 20221107, 20221108, 20221109, 20221110,
   20221111, 20221114, 20221115, 20221116, 20221117, 20221118, 20221121, 20221122, 20221123,
   20221124, 20221125, 20221128, 20221129, 20221130, 20221201, 20221202, 20221205, 20221206,
   20221207, 20221208, 20221209, 20221212, 20221213, 20221214, 20221215, 20221216, 20221219,
   20221220, 20221221, 20221222, 20221223, 20221226, 20221227, 20221228, 20221229, 20221230] : List ℕ).map decodeDate

/-- The rebalance dates the code produces for the monthly 2022 example over
weekday trading days: twelve month-end snaps (December's snap falls back to
2022-12-30 because 2022-12-31 is a Saturday) plus the separately appended end
date. -/
def c2ExpectedDates : List Date :=
  [⟨2022, 1, 31⟩, ⟨2022, 2, 28⟩, ⟨2022, 3, 31⟩, ⟨2022, 4, 29⟩, ⟨2022, 5, 31⟩,
   ⟨2022, 6, 30⟩, ⟨2022, 7, 29⟩, ⟨2022, 8, 31⟩, ⟨2022, 9, 30⟩, ⟨2022, 10, 31⟩,
   ⟨2022, 11, 30⟩, ⟨2022, 12, 30⟩, ⟨2022, 12, 31⟩]

/-- Intermediate states of the `balance` run on `balanceCounterPState`
(used to trace the daily valuation loop's mutations). -/
def bcAssigned : PState := {balanceCounterPState with funds := [("A", 100), ("cash", 0)]}

def bcWithRd : PState := {bcAssigned with rebalance_dates := [some ⟨2022, 1, 3⟩]}

def bcLogged : PState :=
  {bcWithRd with funds := [("A", 200), ("cash", 0)], daily_returns := [(⟨2022, 1, 3⟩, 200)]}

/-! ### Calendar lemmas -/

lemma daysInMonth_ge_28 (y m : ℕ) : 28 ≤ daysInMonth y m := by
  unfold daysInMonth
  split
  · split <;> omega
  · split <;> omega

lemma daysInMonth_feb (y : ℕ) : daysInMonth y 2 = if isLeap y then 29 else 28 := rfl

set_option maxHeartbeats 1000000 in
/-- Closed form of `last_day_of_month`: the day component is replaced by 28
before any arithmetic, so the result depends only on year and month. -/
lemma last_day_of_month_eq (y m day : ℕ) (h1 : 1 ≤ m) (h2 : m ≤ 12) :
    last_day_of_month ⟨y, m, day⟩ = ⟨y, m, daysInMonth y m⟩ := by
  interval_cases m
  · simp [last_day_of_month, addDaysN, subDaysN, nextDay, prevDay, daysInMonth]
  · rcases Bool.eq_false_or_eq_true (isLeap y) with h | h
    · have hf : daysInMonth y 2 = 29 := by simp [daysInMonth, h]
      have s1 : nextDay ⟨y, 2, 28⟩ = ⟨y, 2, 29⟩ := by simp [nextDay, hf]
      have s2 : nextDay ⟨y, 2, 29⟩ = ⟨y, 3, 1⟩ := by simp [nextDay, hf]
      have s3 : nextDay ⟨y, 3, 1⟩ = ⟨y, 3, 2⟩ := by simp [nextDay, daysInMonth]
      have s4 : nextDay ⟨y, 3, 2⟩ = ⟨y, 3, 3⟩ := by simp [nextDay, daysInMonth]
      have p1 : prevDay ⟨y, 3, 3⟩ = ⟨y, 3, 2⟩ := by simp [prevDay]
      have p2 : prevDay ⟨y, 3, 2⟩ = ⟨y, 3, 1⟩ := by simp [prevDay]
      have p3 : prevDay ⟨y, 3, 1⟩ = ⟨y, 2, 29⟩ := by simp [prevDay, hf]
      show subDaysN (addDaysN ⟨y, 2, 28⟩ 4) (addDaysN ⟨y, 2, 28⟩ 4).day = _
      rw [show addDaysN ⟨y, 2, 28⟩ 4 = ⟨y, 3, 3⟩ by
        rw [addDaysN, s1, addDaysN, s2, addDaysN, s3, addDaysN, s4, addDaysN]]
      show subDaysN ⟨y, 3, 3⟩ 3 = _
      rw [subDaysN, p1, subDaysN, p2, subDaysN, p3, subDaysN, hf]
    · have hf : daysInMonth y 2 = 28 := by simp [daysInMonth, h]
      have s1 : nextDay ⟨y, 2, 28⟩ = ⟨y, 3, 1⟩ := by simp [nextDay, hf]
      have s3 : nextDay ⟨y, 3, 1⟩ = ⟨y, 3, 2⟩ := by simp [nextDay, daysInMonth]
      have s4 : nextDay ⟨y, 3, 2⟩ = ⟨y, 3, 3⟩ := by simp [nextDay, daysInMonth]
      have s5 : nextDay ⟨y, 3, 3⟩ = ⟨y, 3, 4⟩ := by simp [nextDay, daysInMonth]
      have p1 : prevDay ⟨y, 3, 4⟩ = ⟨y, 3, 3⟩ := by simp [prevDay]
      have p2 : prevDay ⟨y, 3, 3⟩ = ⟨y, 3, 2⟩ := by simp [prevDay]
      have p3 : prevDay ⟨y, 3, 2⟩ = ⟨y, 3, 1⟩ := by simp [prevDay]
      have p4 : prevDay ⟨y, 3, 1⟩ = ⟨y, 2, 28⟩ := by simp [prevDay, hf]
      show subDaysN (addDaysN ⟨y, 2, 28⟩ 4) (addDaysN ⟨y, 2, 28⟩ 4).day = _
      rw [show addDaysN ⟨y, 2, 28⟩ 4 = ⟨y, 3, 4⟩ by
        rw [addDaysN, s1, addDaysN, s3, addDaysN, s4, addDaysN, s5, addDaysN]]
      show subDaysN ⟨y, 3, 4⟩ 4 = _
      rw [subDaysN, p1, subDaysN, p2, subDaysN, p3, subDaysN, p4, subDaysN, hf]
  · simp [last_day_of_month, addDaysN, subDaysN, nextDay, prevDay, daysInMonth]
  · simp [last_day_of_month, addDaysN, subDaysN, nextDay, prevDay, daysInMonth]
  · simp [last_day_of_month, addDaysN, subDaysN, nextDay, prevDay, daysInMonth]
  · simp [last_day_of_month, addDaysN, subDaysN, nextDay, prevDay, daysInMonth]
  · simp [last_day_of_month, addDaysN, subDaysN, nextDay, prevDay, daysInMonth]
  · simp [last_day_of_month, addDaysN, subDaysN, nextDay, prevDay, daysInMonth]
  · simp [last_day_of_month, addDaysN, subDaysN, nextDay, prevDay, daysInMonth]
  · simp [last_day_of_month, addDaysN, subDaysN, nextDay, prevDay, daysInMonth]
  · simp [last_day_of_month, addDaysN, subDaysN, nextDay, prevDay, daysInMonth]
  · simp [last_day_of_month, addDaysN, subDaysN, nextDay, prevDay, daysInMonth]

lemma minByKey_mem (k : Date → ℤ) (x : Date) (xs : List Date) :
    minByKey k x xs ∈ x :: xs := by
  induction xs generalizing x with
  | nil => simp [minByKey]
  | cons y ys ih =>
    simp only [minByKey]
    split
    · exact List.mem_cons_of_mem x (ih y)
    · rcases List.mem_cons.mp (ih x) with h | h
      · rw [h]; exact List.mem_cons_self x (y :: ys)
      · exact List.mem_cons_of_mem x (List.mem_cons_of_mem y h)

lemma minByKey_le (k : Date → ℤ) (x : Date) (xs : List Date) :
    ∀ z ∈ x :: xs, k (minByKey k x xs) ≤ k z := by
  induction xs generalizing x with
  | nil =>
    intro z hz
    rcases List.mem_cons.mp hz with h | h
    · rw [h]; simp [minByKey]
    · exact absurd h (List.not_mem_nil z)
  | cons y ys ih =>
    intro z hz
    simp only [minByKey]
    by_cases hcmp : k y < k x
    · rw [if_pos hcmp]
      rcases List.mem_cons.mp hz with h | h
      · rw [h]
        exact le_of_lt (lt_of_le_of_lt (ih y y (List.mem_cons_self y ys)) hcmp)
      · exact ih y z h
    · rw [if_neg hcmp]
      rcases List.mem_cons.mp hz with h | h
      · rw [h]; exact ih x x (List.mem_cons_self x ys)
      · rcases List.mem_cons.mp h with h2 | h2
        · rw [h2]
          exact le_trans (ih x x (List.mem_cons_self x ys)) (le_of_not_lt hcmp)
        · exact ih x z (List.mem_cons_of_mem x h2)

lemma find_closest_some_spec (t : Date) (ds : List Date) (m : Date)
    (h : find_closest_earlier_date t ds = some m) :
    m ∈ ds ∧ dateLE m t ∧ ∀ x ∈ ds, dateLE x t → dateLE x m := by
  unfold find_closest_earlier_date at h
  rcases hE : ds.filter (fun d => decide (dateLE d t)) with _ | ⟨x, xs⟩
  · rw [hE] at h; exact absurd h (by simp)
  · rw [hE] at h
    simp only [Option.some.injEq] at h
    subst h
    have hmem : minByKey (fun d => t.rataDie - d.rataDie) x xs ∈ x :: xs :=
      minByKey_mem _ x xs
    have hmem' := hE ▸ hmem
    have hfil := List.mem_filter.mp hmem'
    refine ⟨hfil.1, of_decide_eq_true hfil.2, ?_⟩
    intro z hz hzt
    have hzf : z ∈ x :: xs := by
      rw [← hE]; exact List.mem_filter.mpr ⟨hz, decide_eq_true hzt⟩
    have hk : t.rataDie - (minByKey (fun d => t.rataDie - d.rataDie) x xs).rataDie ≤
        t.rataDie - z.rataDie := minByKey_le (fun d => t.rataDie - d.rataDie) x xs z hzf
    unfold dateLE at *
    omega

lemma find_closest_none_spec (t : Date) (ds : List Date)
    (h : ∀ x ∈ ds, ¬ dateLE x t) : find_closest_earlier_date t ds = none := by
  unfold find_closest_earlier_date
  have : ds.filter (fun d => decide (dateLE d t)) = [] := by
    rw [List.filter_eq_nil_iff]
    intro a ha
    simp only [decide_eq_true_eq]
    exact h a ha
  rw [this]

lemma find_closest_self (t : Date) (ds : List Date)
    (ht : t ∈ ds) (hnd : (ds.map Date.rataDie).Nodup) :
    find_closest_earlier_date t ds = some t := by
  have htf : t ∈ ds.filter (fun d => decide (dateLE d t)) :=
    List.mem_filter.mpr ⟨ht, decide_eq_true (le_refl _)⟩
  rcases hE : ds.filter (fun d => decide (dateLE d t)) with _ | ⟨x, xs⟩
  · rw [hE] at htf; exact absurd htf (List.not_mem_nil t)
  · have hsome : find_closest_earlier_date t ds =
        some (minByKey (fun d => t.rataDie - d.rataDie) x xs) := by
      unfold find_closest_earlier_date
      rw [hE]
    obtain ⟨hm, hmt, hmax⟩ := find_closest_some_spec t ds _ hsome
    have htm := hmax t ht (le_refl _)
    have hrd : Date.rataDie (minByKey (fun d => t.rataDie - d.rataDie) x xs) =
        Date.rataDie t := le_antisymm hmt htm
    have hinj := List.inj_on_of_nodup_map hnd
    rw [hsome]
    exact congrArg some (hinj hm ht hrd)

/-- C7: `find_closest_earlier_date` returns the chronologically maximal date in
the list that is `≤` the target (the target itself when present, given that the
listed dates are chronologically distinct), and `None` when every listed date
exceeds the target; on `[2021-01-29, 2021-02-26]` with target `2021-02-28` it
returns `2021-02-26`. -/
theorem c7_find_closest_earlier_date_spec :
    (∀ (t : Date) (ds : List Date) (m : Date),
        find_closest_earlier_date t ds = some m →
        m ∈ ds ∧ dateLE m t ∧ ∀ x ∈ ds, dateLE x t → dateLE x m)
    ∧ (∀ (t : Date) (ds : List Date),
        (∀ x ∈ ds, ¬ dateLE x t) → find_closest_earlier_date t ds = none)
    ∧ (∀ (t : Date) (ds : List Date), t ∈ ds → (ds.map Date.rataDie).Nodup →
        find_closest_earlier_date t ds = some t)
    ∧ find_closest_earlier_date ⟨2021, 2, 28⟩ [⟨2021, 1, 29⟩, ⟨2021, 2, 26⟩] =
        some ⟨2021, 2, 26⟩ :=
  ⟨find_closest_some_spec, find_closest_none_spec, find_closest_self, by decide⟩

/-- Witness for C7 at the spec's concrete example. -/
theorem c7_find_closest_earlier_date_spec_witness :
    dateLE ⟨2021, 2, 26⟩ ⟨2021, 2, 28⟩ ∧ dateLE ⟨2021, 1, 29⟩ ⟨2021, 2, 26⟩ := by
  have h := c7_find_closest_earlier_date_spec.1 ⟨2021, 2, 28⟩
    [⟨2021, 1, 29⟩, ⟨2021, 2, 26⟩] ⟨2021, 2, 26⟩ (by decide)
  exact ⟨h.2.1, h.2.2 ⟨2021, 1, 29⟩ (by decide) (by decide)⟩

/-- C8: for every valid date, `last_day_of_month` stays in the same year and
month, its day equals the number of days of that month (leap years included),
and it is idempotent. -/
theorem c8_last_day_of_month_spec (d : Date) (hv : d.isValid) :
    (last_day_of_month d).year = d.year ∧
    (last_day_of_month d).month = d.month ∧
    (last_day_of_month d).day = daysInMonth d.year d.month ∧
    last_day_of_month (last_day_of_month d) = last_day_of_month d := by
  obtain ⟨h1, h2, _, _⟩ := hv
  cases d with
  | mk y m day =>
    have he := last_day_of_month_eq y m day h1 h2
    refine ⟨by rw [he], by rw [he], by rw [he], ?_⟩
    rw [he, last_day_of_month_eq y m (daysInMonth y m) h1 h2]

/-- Witness for C8 at 2024-02-15 (leap year February). -/
theorem c8_last_day_of_month_spec_witness :
    (Date.mk 2024 2 15).isValid ∧
    (last_day_of_month ⟨2024, 2, 15⟩).day = 29 ∧
    last_day_of_month (last_day_of_month ⟨2024, 2, 15⟩) = last_day_of_month ⟨2024, 2, 15⟩ := by
  have h := c8_last_day_of_month_spec ⟨2024, 2, 15⟩ (by decide)
  exact ⟨by decide, h.2.2.1.trans (by decide), h.2.2.2⟩

/-- C4: `allocate` succeeds for every weight mapping summing to at most 100 and
replaces the stored allocation wholesale; for sums above 100 it raises the
over-allocation `ValueError` (e.g. on `{A: 60, B: 50}`). -/
theorem c4_allocate_spec :
    (∀ (st : PState) (a : List (String × ℚ)), (a.map (fun p => p.2)).sum ≤ 100 →
        allocate st a = .ok {st with allocations := a})
    ∧ (∀ (st : PState) (a : List (String × ℚ)), (a.map (fun p => p.2)).sum > 100 →
        allocate st a = .error ("Total allocation exceeds 100%", st))
    ∧ (∀ (st : PState), allocate st [("A", 60), ("B", 50)] =
        .error ("Total allocation exceeds 100%", st)) := by
  refine ⟨?_, ?_, ?_⟩
  · intro st a h
    unfold allocate
    rw [if_neg (not_lt.mpr h)]
  · intro st a h
    unfold allocate
    rw [if_pos h]
  · intro st
    unfold allocate
    norm_num

/-- Witness for C4 on the example state. -/
theorem c4_allocate_spec_witness :
    allocate examplePState [("A", 50), ("B", 50)] =
      .ok {examplePState with allocations := [("A", 50), ("B", 50)]} ∧
    allocate examplePState [("A", 60), ("B", 50)] =
      .error ("Total allocation exceeds 100%", examplePState) :=
  ⟨c4_allocate_spec.1 examplePState _ (by norm_num),
   c4_allocate_spec.2.1 examplePState _ (by norm_num)⟩

/-- C10: the over-allocation check precedes the assignment, so a failing
`allocate` raises with the portfolio state exactly as it was before the call;
in particular the stored allocation mapping is unchanged. -/
theorem c10_allocate_error_no_mutation (st : PState) (a : List (String × ℚ))
    (h : (a.map (fun p => p.2)).sum > 100) :
    allocate st a = .error ("Total allocation exceeds 100%", st) ∧
    ∀ (msg : String) (st2 : PState), allocate st a = .error (msg, st2) →
      st2.allocations = st.allocations := by
  constructor
  · unfold allocate
    rw [if_pos h]
  · intro msg st2 h2
    unfold allocate at h2
    rw [if_pos h] at h2
    cases h2
    rfl

/-- Witness for C10 on the example state. -/
theorem c10_allocate_error_no_mutation_witness :
    allocate examplePState [("A", 60), ("B", 50)] =
      .error ("Total allocation exceeds 100%", examplePState) :=
  (c10_allocate_error_no_mutation examplePState [("A", 60), ("B", 50)] (by norm_num)).1

lemma insertByDate_cons_of_le {α : Type} (key : α → Date) (a b : α) (bs : List α)
    (h : dateLE (key a) (key b)) : insertByDate key a (b :: bs) = a :: b :: bs := by
  simp [insertByDate, h]

lemma sortByDate_eq_self {α : Type} (key : α → Date) (l : List α)
    (h : l.Pairwise (fun x y => dateLE (key x) (key y))) : sortByDate key l = l := by
  induction l with
  | nil => rfl
  | cons a as ih =>
    have hp := List.pairwise_cons.mp h
    simp only [sortByDate]
    rw [ih hp.2]
    cases as with
    | nil => rfl
    | cons b bs => exact insertByDate_cons_of_le key a b bs (hp.1 b (by simp))

lemma getLastD_mem_of_ne_nil {α : Type} (x : α) (xs : List α) (hne : xs ≠ []) :
    List.getLastD xs x ∈ xs := by
  cases xs with
  | nil => exact absurd rfl hne
  | cons b bs =>
    rw [List.getLastD_eq_getLast?]
    rw [List.getLast?_eq_getLast (b :: bs) (by simp)]
    exact List.getLast_mem _

lemma pairwise_fst_lt_getLastD (x : Date × ℚ) (xs : List (Date × ℚ))
    (h : (x :: xs).Pairwise (fun a b => dateLT a.1 b.1)) (hne : xs ≠ []) :
    dateLT x.1 (List.getLastD xs x).1 :=
  (List.pairwise_cons.mp h).1 _ (getLastD_mem_of_ne_nil x xs hne)

/-- Counterexample to C3: a single-entry trajectory makes `calculate_cagr`
raise `ZeroDivisionError` (`years = 0`, so `1 / years` divides by zero): the
result is an exception, not the value 0 the claim promises. -/
theorem c3_calculate_cagr_counterexample :
    calculate_cagr [(⟨2020, 1, 1⟩, 10000)] = .error () ∧
    (Except.error () : Except Unit ℝ) ≠ .ok 0 := by
  constructor
  · unfold calculate_cagr
    simp [sortByDate, insertByDate, List.getLastD]
  · simp

/-- C3 (amended): `calculate_cagr` returns 0 on an empty trajectory; on a
single-entry trajectory it raises `ZeroDivisionError` instead of returning 0
(the code only guards the empty case); on a chronologically increasing
trajectory with at least two entries it returns
`(v_end / v_start) ** (1 / years) - 1` with
`years = (date_end - date_start).days / 365.25 > 0`. -/
theorem c3_calculate_cagr_amended :
    (calculate_cagr [] = .ok 0)
    ∧ (∀ (d : Date) (v : ℚ), calculate_cagr [(d, v)] = .error ())
    ∧ (∀ (x : Date × ℚ) (xs : List (Date × ℚ)),
        (x :: xs).Pairwise (fun a b => dateLT a.1 b.1) → xs ≠ [] →
        0 < ((((List.getLastD xs x).1.rataDie - x.1.rataDie : ℤ) : ℚ) / (1461 / 4)) ∧
        calculate_cagr (x :: xs) =
          .ok (Real.rpow (((List.getLastD xs x).2 : ℝ) / (x.2 : ℝ))
            (((((((List.getLastD xs x).1.rataDie - x.1.rataDie : ℤ) : ℚ) / (1461 / 4)) : ℚ) : ℝ))⁻¹ - 1)) := by
  refine ⟨rfl, ?_, ?_⟩
  · intro d v
    unfold calculate_cagr
    simp [sortByDate, insertByDate, List.getLastD]
  · intro x xs hp hne
    have hlt := pairwise_fst_lt_getLastD x xs hp hne
    have hdays : (0 : ℤ) < (List.getLastD xs x).1.rataDie - x.1.rataDie := by
      unfold dateLT at hlt
      omega
    have hyears : (0 : ℚ) < (((List.getLastD xs x).1.rataDie - x.1.rataDie : ℤ) : ℚ) / (1461 / 4) := by
      apply div_pos
      · exact_mod_cast hdays
      · norm_num
    refine ⟨hyears, ?_⟩
    have hle : (x :: xs).Pairwise (fun a b => dateLE a.1 b.1) := by
      refine hp.imp ?_
      intro a b hab
      unfold dateLT at hab
      unfold dateLE
      omega
    have hsort : sortByDate (fun p : Date × ℚ => p.1) (x :: xs) = x :: xs :=
      sortByDate_eq_self _ _ hle
    unfold calculate_cagr
    rw [hsort]
    simp only []
    rw [if_neg (ne_of_gt hyears)]

/-- Witness for C3 (amended) on the two-entry trajectory
`{2020-01-01: 10000, 2021-01-01: 12000}`. -/
theorem c3_calculate_cagr_amended_witness :
    0 < ((((List.getLastD [((⟨2021, 1, 1⟩ : Date), (12000 : ℚ))] ((⟨2020, 1, 1⟩ : Date), (10000 : ℚ))).1.rataDie -
          (Date.mk 2020 1 1).rataDie : ℤ) : ℚ) / (1461 / 4)) ∧
    calculate_cagr [(⟨2020, 1, 1⟩, 10000), (⟨2021, 1, 1⟩, 12000)] =
      .ok (Real.rpow (((List.getLastD [((⟨2021, 1, 1⟩ : Date), (12000 : ℚ))] ((⟨2020, 1, 1⟩ : Date), (10000 : ℚ))).2 : ℝ) /
            ((10000 : ℚ) : ℝ))
        (((((((List.getLastD [((⟨2021, 1, 1⟩ : Date), (12000 : ℚ))] ((⟨2020, 1, 1⟩ : Date), (10000 : ℚ))).1.rataDie -
            (Date.mk 2020 1 1).rataDie : ℤ) : ℚ) / (1461 / 4)) : ℚ) : ℝ))⁻¹ - 1) :=
  c3_calculate_cagr_amended.2.2 (⟨2020, 1, 1⟩, 10000) [(⟨2021, 1, 1⟩, 12000)]
    (by decide) (by simp)

/-- Counterexample to C9: a two-entry monthly table yields exactly one valid
change (the first is NaN), whose sample standard deviation with `ddof = 1` is
NaN, so `calculate_stdev` returns `{'monthly': NaN, 'annually': NaN}` — not
the 0 the claim promises for fewer than 2 valid changes. -/
theorem c9_calculate_stdev_counterexample :
    calculate_stdev [100, 110] [] = .both .nan .nan ∧
    StdevResult.both .nan .nan ≠ .monthlyOnly 0 := by
  constructor
  · unfold calculate_stdev
    norm_num [pctChangeRaw, pctChangeTail, stdSkipNaN, FVal.isNan, FVal.isInf,
      List.filterMap_cons, List.filterMap_nil]
  · simp

/-- C9 (amended): `calculate_stdev` returns the one-key dict `{'monthly': 0}`
when the monthly table has fewer than 2 rows (rows, not valid changes); with
at least 2 rows it returns the pandas sample standard deviations (`ddof = 1`,
NaN entries skipped) of the period-over-period changes of both tables, which
is NaN — not 0 — when fewer than 2 valid changes remain; concretely, monthly
returns `[100, 110, 99]` give standard deviation `sqrt(1/50)`. -/
theorem c9_calculate_stdev_amended :
    (∀ (m a : List ℚ), m.length < 2 → calculate_stdev m a = .monthlyOnly 0)
    ∧ (∀ (m a : List ℚ), 2 ≤ m.length →
        calculate_stdev m a = .both (stdSkipNaN (pctChangeRaw m)) (stdSkipNaN (pctChangeRaw a)))
    ∧ calculate_stdev [100, 110, 99] [] = .both (.num (Real.sqrt (1/50))) .nan := by
  refine ⟨?_, ?_, ?_⟩
  · intro m a h
    unfold calculate_stdev
    rw [if_pos h]
  · intro m a h
    unfold calculate_stdev
    rw [if_neg (not_lt.mpr h)]
  · unfold calculate_stdev
    norm_num [pctChangeRaw, pctChangeTail, stdSkipNaN, FVal.isNan, FVal.isInf,
      List.filterMap_cons, List.filterMap_nil, sampleVar, sampleMean]

/-- Witness for C9 (amended): a single-row monthly table takes the early
`{'monthly': 0}` branch. -/
theorem c9_calculate_stdev_amended_witness :
    calculate_stdev [5] [] = .monthlyOnly 0 :=
  c9_calculate_stdev_amended.1 [5] [] (by norm_num)

lemma pctChangeTail_eq_zipWith (nanRep : FVal) (prev : ℚ) (ps : List ℚ) :
    pctChangeTail nanRep prev ps = List.zipWith (fun a b =>
      if a = 0 then (if b = 0 then nanRep else FVal.inf) else FVal.val (b / a - 1))
      (prev :: ps) ps := by
  induction ps generalizing prev with
  | nil => rfl
  | cons c cs ih => simp [pctChangeTail, ih c]

lemma calculate_returns_sorted (adjclose : Bool) (x : PriceBar) (xs : List PriceBar)
    (hsorted : (x :: xs).Pairwise (fun a b => dateLE a.date b.date)) :
    calculate_returns (x :: xs) adjclose = some
      { full_return := [((List.getLastD xs x).date,
          chooseCol adjclose (List.getLastD xs x) / chooseCol adjclose x - 1)],
        daily_returns := List.zip ((x :: xs).map (fun b => b.date))
          (FVal.val 0 :: List.zipWith (fun a b =>
              if a = 0 then (if b = 0 then FVal.val 0 else FVal.inf)
              else FVal.val (b / a - 1))
            ((x :: xs).map (chooseCol adjclose)) (xs.map (chooseCol adjclose))) } := by
  have hsort : sortByDate (fun b : PriceBar => b.date) (x :: xs) = x :: xs :=
    sortByDate_eq_self _ _ hsorted
  unfold calculate_returns
  rw [hsort]
  simp only [List.map_cons, pctChangeFill0]
  rw [pctChangeTail_eq_zipWith]

/-- C6: for every chronologically sorted non-empty price history,
`calculate_returns` exposes the full-period return `last/first - 1` as a
one-element series dated at the last observation, and the daily series as the
day-over-day percentage change (zero predecessors giving the float special
values) with the first day's NaN filled to 0; on the two-point history
`[(d0, 100, 100), (d1, 110, 110)]` the full-period return is exactly 1/10 and
the daily series is `[0, 1/10]`. -/
theorem c6_calculate_returns_spec :
    (∀ (adjclose : Bool) (x : PriceBar) (xs : List PriceBar),
        (x :: xs).Pairwise (fun a b => dateLE a.date b.date) →
        calculate_returns (x :: xs) adjclose = some
          { full_return := [((List.getLastD xs x).date,
              chooseCol adjclose (List.getLastD xs x) / chooseCol adjclose x - 1)],
            daily_returns := List.zip ((x :: xs).map (fun b => b.date))
              (FVal.val 0 :: List.zipWith (fun a b =>
                  if a = 0 then (if b = 0 then FVal.val 0 else FVal.inf)
                  else FVal.val (b / a - 1))
                ((x :: xs).map (chooseCol adjclose)) (xs.map (chooseCol adjclose))) })
    ∧ calculate_returns [⟨⟨2022, 1, 3⟩, 100, 100⟩, ⟨⟨2022, 1, 4⟩, 110, 110⟩] true =
        some { full_return := [(⟨2022, 1, 4⟩, 1/10)],
               daily_returns := [(⟨2022, 1, 3⟩, .val 0), (⟨2022, 1, 4⟩, .val (1/10))] } := by
  constructor
  · exact calculate_returns_sorted
  · rw [calculate_returns_sorted true ⟨⟨2022, 1, 3⟩, 100, 100⟩ [⟨⟨2022, 1, 4⟩, 110, 110⟩]
      (by decide)]
    norm_num [chooseCol, List.getLastD, List.zip, List.zipWith]

/-- Witness for C6 at the spec's two-point example, through the universal
sorted-history part. -/
theorem c6_calculate_returns_spec_witness :
    calculate_returns [⟨⟨2022, 1, 3⟩, 100, 100⟩, ⟨⟨2022, 1, 4⟩, 110, 110⟩] false = some
      { full_return := [(⟨2022, 1, 4⟩, 1/10)],
        daily_returns := [(⟨2022, 1, 3⟩, .val 0), (⟨2022, 1, 4⟩, .val (1/10))] } := by
  rw [c6_calculate_returns_spec.1 false ⟨⟨2022, 1, 3⟩, 100, 100⟩ [⟨⟨2022, 1, 4⟩, 110, 110⟩]
    (by decide)]
  norm_num [chooseCol, List.getLastD, List.zip, List.zipWith]

lemma gtvFunds_eq (rs : List (String × SeriesDict)) (rt : RType) (u : Date)
    (funds : List (String × ℚ))
    (h : ∀ p ∈ funds, (retOf rs rt u p.1).isSome = true) :
    gtvFunds rs rt u funds = some (gtvAdvanceFunds rs rt u funds,
      ((gtvAdvanceFunds rs rt u funds).map (fun p => p.2)).sum) := by
  induction funds with
  | nil => simp [gtvFunds, gtvAdvanceFunds]
  | cons p ps ih =>
    obtain ⟨t, amt⟩ := p
    have hh := h (t, amt) (by simp)
    obtain ⟨r, hr⟩ := Option.isSome_iff_exists.mp hh
    have hrest := ih (fun q hq => h q (by simp [hq]))
    simp only [gtvFunds, hr, hrest, gtvAdvanceFunds, gtvMultiplier, List.map_cons,
      List.sum_cons, Option.getD_some]

/-- C1: when every held ticker's return lookup succeeds, `get_total_value`
multiplies each stored balance in place by `1 + r` (r being the exact-date or
most-recent-prior return for tickers with a series, and 0 for tickers without
one, cash included) and returns the sum of the updated balances; a second call
at the same date multiplies the already-updated balances by `1 + r` again,
compounding on top of the previous call. -/
theorem c1_get_total_value_spec (st : PState) (rt : RType) (u : Date)
    (h : ∀ p ∈ st.funds, (retOf st.return_series rt u p.1).isSome = true) :
    get_total_value st rt u =
      some ({st with funds := gtvAdvanceFunds st.return_series rt u st.funds},
        ((gtvAdvanceFunds st.return_series rt u st.funds).map (fun p => p.2)).sum)
    ∧ get_total_value {st with funds := gtvAdvanceFunds st.return_series rt u st.funds} rt u =
      some ({st with funds :=
          gtvAdvanceFunds st.return_series rt u (gtvAdvanceFunds st.return_series rt u st.funds)},
        ((gtvAdvanceFunds st.return_series rt u
          (gtvAdvanceFunds st.return_series rt u st.funds)).map (fun p => p.2)).sum)
    ∧ gtvAdvanceFunds st.return_series rt u (gtvAdvanceFunds st.return_series rt u st.funds) =
      st.funds.map (fun p => (p.1,
        p.2 * gtvMultiplier st.return_series rt u p.1 * gtvMultiplier st.return_series rt u p.1)) := by
  have h2 : ∀ p ∈ gtvAdvanceFunds st.return_series rt u st.funds,
      (retOf st.return_series rt u p.1).isSome = true := by
    intro p hp
    obtain ⟨q, hq, hqe⟩ := List.mem_map.mp hp
    rw [← hqe]
    exact h q hq
  refine ⟨?_, ?_, ?_⟩
  · unfold get_total_value
    rw [gtvFunds_eq st.return_series rt u st.funds h]
  · unfold get_total_value
    rw [gtvFunds_eq st.return_series rt u _ h2]
  · unfold gtvAdvanceFunds
    rw [List.map_map]
    rfl

/-- Witness for C1: one instrument with a +10% return at the valuation date
next to cash; the first call grows A from 100 to 110 (total 160), the second
compounds A to 121 (total 171). -/
theorem c1_get_total_value_spec_witness :
    get_total_value gtvExamplePState RType.daily_returns ⟨2022, 1, 3⟩ =
      some ({gtvExamplePState with funds := [("A", 110), ("cash", 50)]}, 160)
    ∧ get_total_value {gtvExamplePState with funds := [("A", 110), ("cash", 50)]}
        RType.daily_returns ⟨2022, 1, 3⟩ =
      some ({gtvExamplePState with funds := [("A", 121), ("cash", 50)]}, 171) := by
  have h := c1_get_total_value_spec gtvExamplePState RType.daily_returns ⟨2022, 1, 3⟩
    (by decide)
  have hA : retOf gtvExamplePState.return_series RType.daily_returns ⟨2022, 1, 3⟩ "A" =
      some (1/10) := rfl
  have hC : retOf gtvExamplePState.return_series RType.daily_returns ⟨2022, 1, 3⟩ "cash" =
      some 0 := rfl
  have he1 : gtvAdvanceFunds gtvExamplePState.return_series RType.daily_returns ⟨2022, 1, 3⟩
      gtvExamplePState.funds = [("A", 110), ("cash", 50)] := by
    show [("A", (100 : ℚ) * gtvMultiplier gtvExamplePState.return_series RType.daily_returns ⟨2022, 1, 3⟩ "A"),
          ("cash", (50 : ℚ) * gtvMultiplier gtvExamplePState.return_series RType.daily_returns ⟨2022, 1, 3⟩ "cash")] = _
    unfold gtvMultiplier
    rw [hA, hC]
    norm_num
  have he2 : gtvAdvanceFunds gtvExamplePState.return_series RType.daily_returns ⟨2022, 1, 3⟩
      [("A", 110), ("cash", 50)] = [("A", 121), ("cash", 50)] := by
    show [("A", (110 : ℚ) * gtvMultiplier gtvExamplePState.return_series RType.daily_returns ⟨2022, 1, 3⟩ "A"),
          ("cash", (50 : ℚ) * gtvMultiplier gtvExamplePState.return_series RType.daily_returns ⟨2022, 1, 3⟩ "cash")] = _
    unfold gtvMultiplier
    rw [hA, hC]
    norm_num
  constructor
  · rw [h.1, he1]
    norm_num
  · have hb := h.2.1
    rw [he1] at hb
    rw [hb, he2]
    norm_num

/-- C5 (amended): `balance(c)` first sets every fund balance to
`c * weight / 100` (unkeyed instruments, cash included, get weight 0) and then
runs the daily valuation loop; when the portfolio has no daily data
(`useful_dates` empty) and the never policy, the loop body never runs and the
balances stay exactly `c * weight / 100`. -/
theorem c5_balance_spec (st : PState) (c : ℚ) (fuel : ℕ)
    (hpol : st.rebalance_frequency = RDO_NEVER)
    (hud : st.useful_dates = [])
    (hse : dateLE st.start_date st.end_date)
    (hfuel : 1 ≤ fuel) :
    balance st c fuel = some {st with
      funds := st.funds.map (fun p =>
        (p.1, c * ((assocGet st.allocations p.1).getD 0) / 100)),
      rebalance_dates := [none, some st.end_date]} := by
  obtain ⟨f, rfl⟩ : ∃ f, fuel = f + 1 := ⟨fuel - 1, by omega⟩
  have hg : generate_rebalance_dates RDO_NEVER st.start_date st.end_date [] (f + 1) =
      some [none, some st.end_date] := by
    unfold generate_rebalance_dates
    rw [show rdoEntryEqStr RDO_NEVER "never" = false from rfl]
    rw [show freqDelta RDO_NEVER.name = none from rfl]
    unfold genLoop
    rw [if_pos hse]
    simp [find_closest_earlier_date, appendEndDate]
  unfold balance calculate_daily_returns
  simp only [hpol, hud, hg]
  rfl

lemma cdrLoop_cons (d : Date) (ds : List Date) (st st1 st2 : PState) (total : ℚ)
    (hgtv : get_total_value st RType.daily_returns d = some (st1, total))
    (hst2 : st2 = {st1 with daily_returns := st1.daily_returns ++ [(d, total)]}) :
    cdrLoop (d :: ds) st =
      if (some d) ∈ st2.rebalance_dates then
        match rebalanceStep st2 with
        | none => none
        | some st3 => cdrLoop ds st3
      else cdrLoop ds st2 := by
  subst hst2
  conv_lhs => rw [cdrLoop]
  rw [hgtv]

/-- Counterexample to C5: on a portfolio whose single instrument has a +100%
return on the one trading day, `balance(100)` does not leave the balances at
`c * weight / 100` — the valuation loop it triggers compounds instrument A
from 100 to 200 before the call returns. -/
theorem c5_balance_counterexample :
    (balance balanceCounterPState 100 5).map PState.funds = some [("A", 200), ("cash", 0)]
    ∧ some [("A", (200 : ℚ)), ("cash", 0)] ≠
      some (balanceCounterPState.funds.map (fun p =>
        (p.1, (100 : ℚ) * ((assocGet balanceCounterPState.allocations p.1).getD 0) / 100))) := by
  have hf2 : balanceCounterPState.funds.map (fun p =>
      (p.1, (100 : ℚ) * ((assocGet balanceCounterPState.allocations p.1).getD 0) / 100)) =
      [("A", 100), ("cash", 0)] := by
    show [("A", (100 : ℚ) * ((assocGet balanceCounterPState.allocations "A").getD 0) / 100),
          ("cash", (100 : ℚ) * ((assocGet balanceCounterPState.allocations "cash").getD 0) / 100)] = _
    rw [show (assocGet balanceCounterPState.allocations "A").getD 0 = 100 from rfl,
        show (assocGet balanceCounterPState.allocations "cash").getD 0 = 0 from rfl]
    norm_num
  have step1 : balance balanceCounterPState 100 5 = calculate_daily_returns bcAssigned 5 := by
    unfold balance bcAssigned
    exact congrArg (fun x => calculate_daily_returns {balanceCounterPState with funds := x} 5) hf2
  have hg : generate_rebalance_dates bcAssigned.rebalance_frequency bcAssigned.start_date
      bcAssigned.end_date bcAssigned.useful_dates 5 = some [some ⟨2022, 1, 3⟩] := by decide
  have step2 : calculate_daily_returns bcAssigned 5 = cdrLoop [⟨2022, 1, 3⟩] bcWithRd := by
    unfold calculate_daily_returns
    rw [hg]
    rfl
  have hA : retOf bcWithRd.return_series RType.daily_returns ⟨2022, 1, 3⟩ "A" = some 1 := rfl
  have hC : retOf bcWithRd.return_series RType.daily_returns ⟨2022, 1, 3⟩ "cash" = some 0 := rfl
  have hgtvF : gtvFunds bcWithRd.return_series RType.daily_returns ⟨2022, 1, 3⟩ bcWithRd.funds =
      some ([("A", 200), ("cash", 0)], 200) := by
    show gtvFunds bcWithRd.return_series RType.daily_returns ⟨2022, 1, 3⟩
      [("A", 100), ("cash", 0)] = _
    simp only [gtvFunds, hA, hC]
    norm_num
  have hgtv : get_total_value bcWithRd RType.daily_returns ⟨2022, 1, 3⟩ =
      some ({bcWithRd with funds := [("A", 200), ("cash", 0)]}, 200) := by
    unfold get_total_value
    rw [hgtvF]
  have hmap : bcLogged.funds.map (fun p =>
      (p.1, (200 : ℚ) * ((assocGet bcLogged.allocations p.1).getD 0) / 100)) =
      [("A", 200), ("cash", 0)] := by
    show [("A", (200 : ℚ) * ((assocGet bcLogged.allocations "A").getD 0) / 100),
          ("cash", (200 : ℚ) * ((assocGet bcLogged.allocations "cash").getD 0) / 100)] = _
    rw [show (assocGet bcLogged.allocations "A").getD 0 = 100 from rfl,
        show (assocGet bcLogged.allocations "cash").getD 0 = 0 from rfl]
    norm_num
  have hrb : rebalanceStep bcLogged = some bcLogged := by
    unfold rebalanceStep
    rw [show bcLogged.daily_returns.getLast? = some (⟨2022, 1, 3⟩, (200 : ℚ)) from rfl]
    show some {bcLogged with funds := bcLogged.funds.map (fun p =>
      (p.1, (200 : ℚ) * ((assocGet bcLogged.allocations p.1).getD 0) / 100))} = some bcLogged
    rw [hmap]
    rfl
  have step3 : cdrLoop [⟨2022, 1, 3⟩] bcWithRd = some bcLogged := by
    rw [cdrLoop_cons ⟨2022, 1, 3⟩ [] bcWithRd {bcWithRd with funds := [("A", 200), ("cash", 0)]}
      bcLogged 200 hgtv (by rfl)]
    rw [if_pos (show (some (⟨2022, 1, 3⟩ : Date)) ∈ bcLogged.rebalance_dates by decide)]
    rw [hrb]
    rfl
  constructor
  · rw [step1, step2, step3]
    rfl
  · rw [hf2]
    simp only [ne_eq, Option.some.injEq, List.cons.injEq, Prod.mk.injEq]
    intro h
    have h200 := h.1.2
    norm_num at h200

/-- Witness for C5 (amended): `balance(10000)` with allocation `{A:50, B:50}`
on funds `{A:0, B:0, cash:10000}` and no daily data yields exactly
`A = 5000, B = 5000, cash = 0`. -/
theorem c5_balance_spec_witness :
    balance examplePState 10000 1 = some {examplePState with
      funds := [("A", 5000), ("B", 5000), ("cash", 0)],
      rebalance_dates := [none, some ⟨2022, 12, 31⟩]} := by
  rw [c5_balance_spec examplePState 10000 1 rfl rfl (by decide) (by norm_num)]
  have hf : examplePState.funds.map (fun p =>
      (p.1, (10000 : ℚ) * ((assocGet examplePState.allocations p.1).getD 0) / 100)) =
      [("A", 5000), ("B", 5000), ("cash", 0)] := by
    show [("A", (10000 : ℚ) * ((assocGet examplePState.allocations "A").getD 0) / 100),
          ("B", (10000 : ℚ) * ((assocGet examplePState.allocations "B").getD 0) / 100),
          ("cash", (10000 : ℚ) * ((assocGet examplePState.allocations "cash").getD 0) / 100)] = _
    rw [show (assocGet examplePState.allocations "A").getD 0 = 50 from rfl,
        show (assocGet examplePState.allocations "B").getD 0 = 50 from rfl,
        show (assocGet examplePState.allocations "cash").getD 0 = 0 from rfl]
    norm_num
  rw [hf]
  rfl

lemma genLoop_never (u : List Date) (s e : Date) (f : ℕ) (hmem : s ∈ u) :
    genLoop u none s e (f + 1) s [] = some [some e] := by
  unfold genLoop
  by_cases hse : dateLE s e
  · rw [if_pos hse]
    show (match (if s ∈ u then some s else find_closest_earlier_date s u) with
      | none => some (appendEndDate ([] ++ [none]) e)
      | some c2 => some (appendEndDate
          (if c2 = s then ([] : List (Option Date)) else [] ++ [some c2]) e)) = some [some e]
    rw [if_pos hmem]
    show some (appendEndDate (if s = s then ([] : List (Option Date)) else [] ++ [some s]) e) =
      some [some e]
    rw [if_pos rfl]
    unfold appendEndDate
    simp
  · rw [if_neg hse]
    unfold appendEndDate
    simp

/-- Counterexample to C2: with the dict-valued policy the dead string
comparison at line 260 never fires, so the never policy falls into the loop;
when the start date is not an available date the loop emits its backward snap
before the appended end date: the result is `[2021-12-31, end]`, not `[end]`. -/
theorem c2_generate_rebalance_dates_counterexample :
    generate_rebalance_dates RDO_NEVER ⟨2022, 1, 2⟩ ⟨2022, 1, 31⟩
      [⟨2021, 12, 31⟩, ⟨2022, 1, 31⟩] 10 =
      some [some ⟨2021, 12, 31⟩, some ⟨2022, 1, 31⟩] ∧
    some [some (⟨2021, 12, 31⟩ : Date), some (⟨2022, 1, 31⟩ : Date)] ≠
      some [some (⟨2022, 1, 31⟩ : Date)] := by
  constructor
  · decide
  · decide

set_option maxHeartbeats 8000000 in
set_option maxRecDepth 10000 in
/-- C2 (amended): the never policy returns `[end]` exactly when the start date
is itself an available date (otherwise its backward snap is also emitted); the
monthly example from 2021-12-31 to 2022-12-31 over weekday trading days
produces 13 strictly increasing entries — one month-end snap per month of
2022, December's falling back to 2022-12-30 since 2022-12-31 is a Saturday,
plus the separately appended end date — the last equal to the end date and
none equal to the start date. -/
theorem c2_generate_rebalance_dates_amended :
    (∀ (s e : Date) (u : List Date) (fuel : ℕ), 1 ≤ fuel → s ∈ u →
        generate_rebalance_dates RDO_NEVER s e u fuel = some [some e])
    ∧ generate_rebalance_dates RDO_MONTHLY ⟨2021, 12, 31⟩ ⟨2022, 12, 31⟩ tradingDays2022 100 =
        some (c2ExpectedDates.map some)
    ∧ c2ExpectedDates.length = 13
    ∧ chronoSorted c2ExpectedDates = true
    ∧ c2ExpectedDates.getLast? = some ⟨2022, 12, 31⟩
    ∧ (⟨2021, 12, 31⟩ : Date) ∉ c2ExpectedDates := by
  refine ⟨?_, ?_, ?_, ?_, ?_, ?_⟩
  · intro s e u fuel hf hmem
    obtain ⟨f, rfl⟩ : ∃ f, fuel = f + 1 := ⟨fuel - 1, by omega⟩
    show genLoop u (freqDelta RDO_NEVER.name) s e (f + 1) s [] = some [some e]
    rw [show freqDelta RDO_NEVER.name = none from rfl]
    exact genLoop_never u s e f hmem
  · decide
  · decide
  · decide
  · decide
  · decide

set_option maxHeartbeats 8000000 in
set_option maxRecDepth 10000 in
/-- The explicit trading-day list is exactly the weekday generator's output. -/
theorem c2_trading_days_are_the_weekdays :
    tradingDays2022 = (dateRangeFrom ⟨2021, 12, 31⟩ 365).filter isWeekday := by
  decide

/-- Witness for C2 (amended): never policy with the start date available. -/
theorem c2_generate_rebalance_dates_amended_witness :
    generate_rebalance_dates RDO_NEVER ⟨2022, 1, 3⟩ ⟨2022, 1, 31⟩
      [⟨2022, 1, 3⟩, ⟨2022, 1, 31⟩] 10 = some [some ⟨2022, 1, 31⟩] :=
  c2_generate_rebalance_dates_amended.1 ⟨2022, 1, 3⟩ ⟨2022, 1, 31⟩
    [⟨2022, 1, 3⟩, ⟨2022, 1, 31⟩] 10 (by norm_num) (by decide)
